import Mathlib

/-!
Verification development for the `instascan` scanner module
(`src/scanner.js`).  The JavaScript source is shallowly embedded:

* `ScanState` / `scanTick` model `ActiveScan` and its `_scan` tick
  (frame counting, duplicate suppression, the refractory timer and
  deferred `scan` emission).  Time is an explicit `Nat` clock; the
  `setTimeout` that clears `lastResult` is a stored absolute fire
  time which fires at the first tick whose clock has passed it.
* `AnalyzerState` / `analyze` model `Analyzer.analyze` (lazy sensor
  measurement and pixel-buffer allocation, then decode attempts).
  The external ZXing decode primitive is an oracle input
  (`DecodeOutcome`): its status word and the accumulated string the
  decode callback left in the global accumulator.
* `ScannerState` and the `fsm*` / `scanner*` functions model the
  `Scanner` class: the `fsm-as-promised` state machine (stopped,
  started, active, inactive), its callbacks `onenteractive`,
  `onleaveactive`, `onenteredstarted`, and the public `start` /
  `stop` methods and setters.  Side effects on the camera, video
  element, frame sampler and event emitter are recorded in an
  ordered action trace.
-/

namespace Instascan

/-- Outcome of one decode attempt by the scan loop: with what the
analyzer produced (`none` when analysis yields nothing). -/
structure Analysis where
  result : String
  canvas : Nat
deriving DecidableEq, Repr

/-- A `scan` event emitted to subscribers: decoded text plus the
optional captured image (`canvas.toDataURL` modelled as the opaque
canvas reference). -/
structure ScanEvent where
  text : String
  image : Option Nat
deriving DecidableEq, Repr

/-- Observables of one `_scan` tick: whether `analyzer.analyze()` was
invoked, and the `scan` event emitted (deferred via `setTimeout 0` in
the source), if any. -/
structure TickOut where
  analyzeInvoked : Bool
  event : Option ScanEvent
deriving DecidableEq, Repr

/-- State of `ActiveScan`: the mutable scan configuration, the frame
counter, the duplicate-suppression fields `lastResult` and the pending
refractory timeout (absolute fire time on the explicit clock). -/
structure ScanState where
  active : Bool
  frameCount : Nat
  scanPeriod : Nat
  captureImage : Bool
  refractoryPeriod : Nat
  lastResult : Option String
  refractoryTimeout : Option Nat
deriving DecidableEq, Repr

/-- Fire the pending refractory timeout if its scheduled time has been
reached: the `setTimeout` callback sets `lastResult = null`. -/
def fireDueTimer (now : Nat) (s : ScanState) : ScanState :=
  match s.refractoryTimeout with
  | some tf =>
    if tf ≤ now then
      { s with lastResult := none, refractoryTimeout := none }
    else s
  | none => s

/-- One `ActiveScan._scan` tick at clock `now`.  `analysis` is the
oracle for what `this._analyzer.analyze()` returns when invoked.
Mirrors the source: bail when inactive; increment the frame counter
and return unless it reached `scanPeriod` (then reset it); skip a
falsy analysis; reject a falsy (empty) result or a repeat of
`lastResult`; otherwise reschedule the refractory timeout, record
`lastResult`, and emit the `scan` event. -/
def scanTick (now : Nat) (analysis : Option Analysis) (s0 : ScanState) :
    ScanState × TickOut :=
  let s := fireDueTimer now s0
  if s.active then
    if s.frameCount + 1 ≠ s.scanPeriod then
      ({ s with frameCount := s.frameCount + 1 }, ⟨false, none⟩)
    else
      let s1 := { s with frameCount := 0 }
      match analysis with
      | none => (s1, ⟨true, none⟩)
      | some a =>
        if a.result = "" ∨ s1.lastResult = some a.result then
          (s1, ⟨true, none⟩)
        else
          let image := if s1.captureImage then some a.canvas else none
          ({ s1 with
              refractoryTimeout := some (now + s1.refractoryPeriod),
              lastResult := some a.result },
           ⟨true, some ⟨a.result, image⟩⟩)
  else (s, ⟨false, none⟩)

/-- Run a sequence of ticks, returning the final scan state. -/
def runState (s : ScanState) : List (Nat × Option Analysis) → ScanState
  | [] => s
  | (now, a) :: rest => runState (scanTick now a s).1 rest

/-- Run a sequence of ticks, collecting for each tick whether
`analyze` was invoked. -/
def runFlags (s : ScanState) : List (Nat × Option Analysis) → List Bool
  | [] => []
  | (now, a) :: rest =>
    (scanTick now a s).2.analyzeInvoked :: runFlags (scanTick now a s).1 rest

/-- Run a sequence of ticks, collecting the emitted `scan` events in
order. -/
def runEvents (s : ScanState) : List (Nat × Option Analysis) → List ScanEvent
  | [] => []
  | (now, a) :: rest =>
    ((scanTick now a s).2.event.toList) ++ runEvents (scanTick now a s).1 rest

example :
    runFlags ⟨true, 0, 2, false, 5000, none, none⟩
      [(0, none), (1, none), (2, none), (3, none)] =
      [false, true, false, true] := by decide

example :
    runEvents ⟨true, 0, 1, false, 10, none, none⟩
      [(0, some ⟨"X", 7⟩), (1, some ⟨"X", 7⟩), (11, some ⟨"X", 7⟩)] =
      [⟨"X", none⟩, ⟨"X", none⟩] := by decide

/-- State of `Analyzer`: the video element's reported pixel dimensions
(`videoWidth = 0` models the falsy `!this.video.videoWidth` check
before metadata loads), whether the ZXing pixel buffer has been
allocated (`this.imageBuffer` non-null), and the measured sensor
window. -/
structure AnalyzerState where
  videoWidth : Nat
  videoHeight : Nat
  imageBufferAllocated : Bool
  sensorLeft : Option Nat
  sensorTop : Option Nat
  sensorWidth : Option Nat
  sensorHeight : Option Nat
deriving DecidableEq, Repr

/-- Oracle for one invocation of the external ZXing decode primitive:
the returned status word (nonzero means failure) and the value the
decode callback left in the global accumulator
(`window.zxDecodeResult`; `none` models it never having been set). -/
structure DecodeOutcome where
  status : Nat
  accumulated : Option String
deriving DecidableEq, Repr

/-- `Analyzer.analyze`: returns the updated analyzer state, the
analysis produced (`none` for JS `null`), and whether the decode
primitive (`ZXing._decode_qr`) was invoked.  Mirrors the source:
return null while `videoWidth` is falsy; on the first call with known
dimensions measure the sensor window, allocate the buffer and return
null without decoding; afterwards copy pixels and decode, treating a
nonzero status as no result and otherwise returning the accumulated
string (even when empty) with the canvas. -/
def analyze (d : DecodeOutcome) (s : AnalyzerState) :
    AnalyzerState × Option Analysis × Bool :=
  if s.videoWidth = 0 then
    (s, none, false)
  else if s.imageBufferAllocated = false then
    ({ s with
        sensorWidth := some s.videoWidth,
        sensorHeight := some s.videoHeight,
        sensorLeft := some (s.videoWidth / 2 - s.videoWidth / 2),
        sensorTop := some (s.videoHeight / 2 - s.videoHeight / 2),
        imageBufferAllocated := true },
     none, false)
  else if d.status ≠ 0 then
    (s, none, true)
  else
    match d.accumulated with
    | some r => (s, some ⟨r, 0⟩, true)
    | none => (s, none, true)

/-- The four states of the `fsm-as-promised` machine declared in the
`Scanner` constructor. -/
inductive FsmState where
  | stopped
  | started
  | active
  | inactive
deriving DecidableEq, Repr

/-- Errors surfaced as rejected promises: `Camera is not defined.`
thrown by `_enableScan`, and the library's rejection of an event fired
from a state that does not allow it. -/
inductive ScanError where
  | cameraUndefined
  | invalidTransition
deriving DecidableEq, Repr

/-- Externally observable actions of the `Scanner`, in program order:
calls into the camera provider (`camera.start()` / `camera.stop()`),
binding/clearing the video element's stream source, starting/stopping
the frame sampler (`ActiveScan.start` / `.stop`), and the `active` /
`inactive` events emitted to subscribers.  Cameras are identified by
`Nat` handles; `camera.start()`'s stream URL is modelled by the
handle. -/
inductive Act where
  | cameraStart : Nat → Act
  | bindVideo : Nat → Act
  | scanStart : Act
  | videoClear : Act
  | scanStop : Act
  | cameraStop : Act
  | emitActive : Act
  | emitInactive : Act
deriving DecidableEq, Repr

/-- State of a `Scanner`: the FSM state, the `backgroundScan` flag,
the stored camera handle (`this._camera`), the bound video stream
source, whether the camera device is currently running, the owned
`ActiveScan` state, and the accumulated action trace. -/
structure ScannerState where
  fsmState : FsmState
  backgroundScan : Bool
  camera : Option Nat
  videoSrc : Option Nat
  cameraOn : Bool
  scan : ScanState
  trace : List Act
deriving DecidableEq, Repr

/-- Constructor options (`opts`): each field `none` models the JS
property being absent/undefined. -/
structure ScanOpts where
  backgroundScan : Option Bool := none
  captureImage : Option Bool := none
  scanPeriod : Option Nat := none
  refractoryPeriod : Option Nat := none
deriving DecidableEq, Repr

/-- JS `x || d` for a numeric option: the default is taken when the
property is absent or `0` (both falsy). -/
def jsOrNat (x : Option Nat) (d : Nat) : Nat :=
  match x with
  | some v => if v = 0 then d else v
  | none => d

/-- The `Scanner` constructor: defaults `backgroundScan`/`captureImage`
to `false`, `scanPeriod` to `1` and `refractoryPeriod` to `5000` ms
via JS `||`, builds the (not yet active) `ActiveScan`, starts the FSM
in `stopped`, and emits an initial `inactive` event. -/
def mkScanner (opts : ScanOpts) : ScannerState :=
  { fsmState := FsmState.stopped
    backgroundScan := opts.backgroundScan.getD false
    camera := none
    videoSrc := none
    cameraOn := false
    scan :=
      { active := false
        frameCount := 0
        scanPeriod := jsOrNat opts.scanPeriod 1
        captureImage := opts.captureImage.getD false
        refractoryPeriod := jsOrNat opts.refractoryPeriod (5 * 1000)
        lastResult := none
        refractoryTimeout := none }
    trace := [Act.emitInactive] }

/-- Public setter `scanner.captureImage = b` (writes through to the
`ActiveScan`). -/
def setCaptureImage (b : Bool) (sc : ScannerState) : ScannerState :=
  { sc with scan := { sc.scan with captureImage := b } }

/-- Public setter `scanner.scanPeriod = p`. -/
def setScanPeriod (p : Nat) (sc : ScannerState) : ScannerState :=
  { sc with scan := { sc.scan with scanPeriod := p } }

/-- Public setter `scanner.refractoryPeriod = p`. -/
def setRefractoryPeriod (p : Nat) (sc : ScannerState) : ScannerState :=
  { sc with scan := { sc.scan with refractoryPeriod := p } }

/-- `Scanner._enableScan(camera)`: resolve the camera handle from the
explicit argument or the stored one (`camera || this._camera`); throw
`Camera is not defined.` when neither exists; otherwise store the
handle, start the camera, bind its stream as the video source and
start the frame sampler. -/
def enableScan (camera : Option Nat) (sc : ScannerState) :
    Except ScanError ScannerState :=
  match camera.orElse (fun _ => sc.camera) with
  | none => Except.error ScanError.cameraUndefined
  | some c =>
    Except.ok
      { sc with
          camera := some c
          cameraOn := true
          videoSrc := some c
          scan := { sc.scan with active := true }
          trace := sc.trace ++ [Act.cameraStart c, Act.bindVideo c, Act.scanStart] }

/-- `Scanner._disableScan`: clear the video source, stop the frame
sampler, and stop the camera if one is stored (the handle itself is
kept). -/
def disableScan (sc : ScannerState) : ScannerState :=
  { sc with
      videoSrc := none
      scan := { sc.scan with active := false }
      cameraOn := if sc.camera.isSome then false else sc.cameraOn
      trace :=
        sc.trace ++ [Act.videoClear, Act.scanStop] ++
          (if sc.camera.isSome then [Act.cameraStop] else []) }

/-- The FSM `activate` event.  Allowed from `started` and `inactive`;
its condition picks `active` when the page is visible or
`backgroundScan` is set, `inactive` otherwise.  Entering `active` runs
`onenteractive`: `_enableScan` (whose failure rejects the transition)
followed by emitting the `active` event. -/
def fsmActivate (cam : Option Nat) (visible : Bool) (sc : ScannerState) :
    Except ScanError ScannerState :=
  if sc.fsmState = FsmState.started ∨ sc.fsmState = FsmState.inactive then
    if visible || sc.backgroundScan then
      match enableScan cam sc with
      | Except.error e => Except.error e
      | Except.ok sc1 =>
        Except.ok
          { sc1 with
              fsmState := FsmState.active
              trace := sc1.trace ++ [Act.emitActive] }
    else
      Except.ok { sc with fsmState := FsmState.inactive }
  else Except.error ScanError.invalidTransition

/-- The FSM `stop` event, allowed from `started`, `active` and
`inactive`.  Leaving `active` runs `onleaveactive`: `_disableScan`
and emission of the `inactive` event. -/
def fsmStop (sc : ScannerState) : Except ScanError ScannerState :=
  if sc.fsmState = FsmState.stopped then
    Except.error ScanError.invalidTransition
  else if sc.fsmState = FsmState.active then
    let sc1 := disableScan sc
    Except.ok
      { sc1 with
          fsmState := FsmState.stopped
          trace := sc1.trace ++ [Act.emitInactive] }
  else Except.ok { sc with fsmState := FsmState.stopped }

/-- The FSM `start` event, allowed only from `stopped`; entering
`started` runs `onenteredstarted`, which fires `activate` with the
requested camera. -/
def fsmStart (cam : Option Nat) (visible : Bool) (sc : ScannerState) :
    Except ScanError ScannerState :=
  if sc.fsmState = FsmState.stopped then
    fsmActivate cam visible { sc with fsmState := FsmState.started }
  else Except.error ScanError.invalidTransition

/-- Public `Scanner.start(camera)`: fire `start` if the FSM allows it,
otherwise force a `stop` first and then `start`. -/
def scannerStart (cam : Option Nat) (visible : Bool) (sc : ScannerState) :
    Except ScanError ScannerState :=
  if sc.fsmState = FsmState.stopped then fsmStart cam visible sc
  else
    match fsmStop sc with
    | Except.error e => Except.error e
    | Except.ok sc1 => fsmStart cam visible sc1

/-- Public `Scanner.stop()`: fire `stop` only when the FSM allows it
(a no-op when already stopped). -/
def scannerStop (sc : ScannerState) : ScannerState :=
  if sc.fsmState = FsmState.stopped then sc
  else
    match fsmStop sc with
    | Except.ok sc1 => sc1
    | Except.error _ => sc

example :
    (scannerStart (some 4) true (mkScanner {})).map (fun sc => sc.fsmState) =
      Except.ok FsmState.active := rfl

example :
    (scannerStart (some 4) false (mkScanner {})).map (fun sc => sc.fsmState) =
      Except.ok FsmState.inactive := rfl

example :
    scannerStart none true (mkScanner {}) =
      Except.error ScanError.cameraUndefined := rfl

theorem fireDueTimer_active (now : Nat) (s : ScanState) :
    (fireDueTimer now s).active = s.active := by
  unfold fireDueTimer
  cases s.refractoryTimeout with
  | none => rfl
  | some tf => by_cases h : tf ≤ now <;> simp [h]

theorem fireDueTimer_frameCount (now : Nat) (s : ScanState) :
    (fireDueTimer now s).frameCount = s.frameCount := by
  unfold fireDueTimer
  cases s.refractoryTimeout with
  | none => rfl
  | some tf => by_cases h : tf ≤ now <;> simp [h]

theorem fireDueTimer_scanPeriod (now : Nat) (s : ScanState) :
    (fireDueTimer now s).scanPeriod = s.scanPeriod := by
  unfold fireDueTimer
  cases s.refractoryTimeout with
  | none => rfl
  | some tf => by_cases h : tf ≤ now <;> simp [h]

theorem fireDueTimer_captureImage (now : Nat) (s : ScanState) :
    (fireDueTimer now s).captureImage = s.captureImage := by
  unfold fireDueTimer
  cases s.refractoryTimeout with
  | none => rfl
  | some tf => by_cases h : tf ≤ now <;> simp [h]

theorem fireDueTimer_refractoryPeriod (now : Nat) (s : ScanState) :
    (fireDueTimer now s).refractoryPeriod = s.refractoryPeriod := by
  unfold fireDueTimer
  cases s.refractoryTimeout with
  | none => rfl
  | some tf => by_cases h : tf ≤ now <;> simp [h]

theorem fireDueTimer_of_none (now : Nat) (s : ScanState)
    (ht : s.refractoryTimeout = none) : fireDueTimer now s = s := by
  unfold fireDueTimer
  rw [ht]

theorem fireDueTimer_of_pending (now tf : Nat) (s : ScanState)
    (ht : s.refractoryTimeout = some tf) (h : ¬ tf ≤ now) :
    fireDueTimer now s = s := by
  unfold fireDueTimer
  rw [ht]
  simp [h]

theorem fireDueTimer_of_due (now tf : Nat) (s : ScanState)
    (ht : s.refractoryTimeout = some tf) (h : tf ≤ now) :
    fireDueTimer now s =
      { s with lastResult := none, refractoryTimeout := none } := by
  unfold fireDueTimer
  rw [ht]
  simp [h]

theorem scanTick_of_inactive (now : Nat) (analysis : Option Analysis)
    (s : ScanState) (ha : (fireDueTimer now s).active = false) :
    scanTick now analysis s = (fireDueTimer now s, ⟨false, none⟩) := by
  simp [scanTick, ha]

theorem scanTick_of_notDue (now : Nat) (analysis : Option Analysis)
    (s : ScanState) (ha : (fireDueTimer now s).active = true)
    (hf : (fireDueTimer now s).frameCount + 1 ≠ (fireDueTimer now s).scanPeriod) :
    scanTick now analysis s =
      ({ fireDueTimer now s with
          frameCount := (fireDueTimer now s).frameCount + 1 },
       ⟨false, none⟩) := by
  simp [scanTick, ha, hf]

theorem scanTick_of_due_none (now : Nat) (s : ScanState)
    (ha : (fireDueTimer now s).active = true)
    (hf : (fireDueTimer now s).frameCount + 1 = (fireDueTimer now s).scanPeriod) :
    scanTick now none s =
      ({ fireDueTimer now s with frameCount := 0 }, ⟨true, none⟩) := by
  simp [scanTick, ha, hf]

theorem scanTick_of_due_reject (now : Nat) (a : Analysis) (s : ScanState)
    (ha : (fireDueTimer now s).active = true)
    (hf : (fireDueTimer now s).frameCount + 1 = (fireDueTimer now s).scanPeriod)
    (hr : a.result = "" ∨ (fireDueTimer now s).lastResult = some a.result) :
    scanTick now (some a) s =
      ({ fireDueTimer now s with frameCount := 0 }, ⟨true, none⟩) := by
  rcases hr with h | h
  · simp [scanTick, ha, hf, h]
  · simp [scanTick, ha, hf, h]

theorem scanTick_of_due_accept (now : Nat) (a : Analysis) (s : ScanState)
    (ha : (fireDueTimer now s).active = true)
    (hf : (fireDueTimer now s).frameCount + 1 = (fireDueTimer now s).scanPeriod)
    (hr : ¬ (a.result = "" ∨ (fireDueTimer now s).lastResult = some a.result)) :
    scanTick now (some a) s =
      ({ fireDueTimer now s with
          frameCount := 0
          lastResult := some a.result
          refractoryTimeout := some (now + s.refractoryPeriod) },
       ⟨true, some ⟨a.result,
          if s.captureImage then some a.canvas else none⟩⟩) := by
  simp [scanTick, ha, hf, hr, fireDueTimer_refractoryPeriod,
    fireDueTimer_captureImage]

/-- C7: every `analyze` call while the video source reports no valid
pixel width returns none with the analyzer state untouched (no buffer
allocation); the first call once dimensions are known only measures
and allocates the buffer, returning none without invoking the decode
primitive; calls with an allocated buffer do invoke the decode
primitive. -/
theorem analyze_lazy_allocation (d : DecodeOutcome) (s : AnalyzerState) :
    (s.videoWidth = 0 → analyze d s = (s, none, false)) ∧
    (s.videoWidth ≠ 0 → s.imageBufferAllocated = false →
      (analyze d s).2.1 = none ∧ (analyze d s).2.2 = false ∧
        (analyze d s).1.imageBufferAllocated = true) ∧
    (s.videoWidth ≠ 0 → s.imageBufferAllocated = true →
      (analyze d s).2.2 = true) := by
  refine ⟨?_, ?_, ?_⟩
  · intro h
    simp [analyze, h]
  · intro h h2
    simp [analyze, h, h2]
  · intro h h2
    by_cases hs : d.status = 0
    · cases ha : d.accumulated <;> simp [analyze, h, h2, hs, ha]
    · simp [analyze, h, h2, hs]

/-- Witness for `analyze_lazy_allocation` at concrete inputs. -/
theorem analyze_lazy_allocation_witness :
    analyze ⟨0, some "Q"⟩ ⟨0, 0, false, none, none, none, none⟩ =
        (⟨0, 0, false, none, none, none, none⟩, none, false) ∧
    ((analyze ⟨0, some "Q"⟩ ⟨640, 480, false, none, none, none, none⟩).2.1 = none ∧
      (analyze ⟨0, some "Q"⟩ ⟨640, 480, false, none, none, none, none⟩).2.2 = false ∧
      (analyze ⟨0, some "Q"⟩ ⟨640, 480, false, none, none, none, none⟩).1.imageBufferAllocated = true) ∧
    (analyze ⟨0, some "Q"⟩ ⟨640, 480, true, some 0, some 0, some 640, some 480⟩).2.2 = true :=
  ⟨(analyze_lazy_allocation ⟨0, some "Q"⟩ ⟨0, 0, false, none, none, none, none⟩).1 rfl,
   (analyze_lazy_allocation ⟨0, some "Q"⟩ ⟨640, 480, false, none, none, none, none⟩).2.1
     (by decide) rfl,
   (analyze_lazy_allocation ⟨0, some "Q"⟩ ⟨640, 480, true, some 0, some 0, some 640, some 480⟩).2.2
     (by decide) rfl⟩

/-- C9: a zero-status decode whose callback accumulated the empty
string makes `analyze` return a result object with empty text, but a
tick fed that analysis behaves exactly as a tick fed no analysis (the
scan loop's falsy-result check), and no tick ever emits a `scan`
event whose text is empty. -/
theorem empty_result_suppressed (d : DecodeOutcome) (s : AnalyzerState)
    (t : ScanState) (now c : Nat) (analysis : Option Analysis) :
    (s.videoWidth ≠ 0 → s.imageBufferAllocated = true → d.status = 0 →
      d.accumulated = some "" → (analyze d s).2.1 = some ⟨"", 0⟩) ∧
    scanTick now (some ⟨"", c⟩) t = scanTick now none t ∧
    (∀ ev, (scanTick now analysis t).2.event = some ev → ev.text ≠ "") := by
  refine ⟨?_, ?_, ?_⟩
  · intro h h2 hs ha
    simp [analyze, h, h2, hs, ha]
  · by_cases ha : (fireDueTimer now t).active = true
    · by_cases hf :
        (fireDueTimer now t).frameCount + 1 = (fireDueTimer now t).scanPeriod
      · rw [scanTick_of_due_reject now ⟨"", c⟩ t ha hf (Or.inl rfl),
          scanTick_of_due_none now t ha hf]
      · rw [scanTick_of_notDue now (some ⟨"", c⟩) t ha hf,
          scanTick_of_notDue now none t ha hf]
    · rw [scanTick_of_inactive now (some ⟨"", c⟩) t (by simpa using ha),
        scanTick_of_inactive now none t (by simpa using ha)]
  · intro ev hev hemp
    by_cases ha : (fireDueTimer now t).active = true
    · by_cases hf :
        (fireDueTimer now t).frameCount + 1 = (fireDueTimer now t).scanPeriod
      · cases analysis with
        | none => rw [scanTick_of_due_none now t ha hf] at hev; simp at hev
        | some a =>
          by_cases hr :
            a.result = "" ∨ (fireDueTimer now t).lastResult = some a.result
          · rw [scanTick_of_due_reject now a t ha hf hr] at hev
            simp at hev
          · rw [scanTick_of_due_accept now a t ha hf hr] at hev
            simp at hev
            apply hr
            left
            rw [← hev] at hemp
            simpa using hemp
      · rw [scanTick_of_notDue now analysis t ha hf] at hev
        simp at hev
    · rw [scanTick_of_inactive now analysis t (by simpa using ha)] at hev
      simp at hev

/-- Witness for `empty_result_suppressed` at concrete inputs. -/
theorem empty_result_suppressed_witness :
    (analyze ⟨0, some ""⟩ ⟨640, 480, true, some 0, some 0, some 640, some 480⟩).2.1 =
        some ⟨"", 0⟩ ∧
    scanTick 0 (some ⟨"", 3⟩) ⟨true, 0, 1, false, 5000, none, none⟩ =
      scanTick 0 none ⟨true, 0, 1, false, 5000, none, none⟩ :=
  ⟨(empty_result_suppressed ⟨0, some ""⟩ ⟨640, 480, true, some 0, some 0, some 640, some 480⟩
      ⟨true, 0, 1, false, 5000, none, none⟩ 0 3 none).1 (by decide) rfl rfl rfl,
   (empty_result_suppressed ⟨0, some ""⟩ ⟨640, 480, true, some 0, some 0, some 640, some 480⟩
      ⟨true, 0, 1, false, 5000, none, none⟩ 0 3 none).2.1⟩

/-- C10: constructing with `scanPeriod = 0` or `refractoryPeriod = 0`
discards the zero in favour of the defaults (`1` and `5000` ms); no
construction yields a zero refractory period, which is reachable only
through the public setter afterwards. -/
theorem zero_config_defaults (opts : ScanOpts) (sc : ScannerState) :
    (opts.scanPeriod = some 0 → (mkScanner opts).scan.scanPeriod = 1) ∧
    (opts.refractoryPeriod = some 0 →
      (mkScanner opts).scan.refractoryPeriod = 5000) ∧
    (mkScanner opts).scan.refractoryPeriod ≠ 0 ∧
    (setRefractoryPeriod 0 sc).scan.refractoryPeriod = 0 := by
  refine ⟨?_, ?_, ?_, rfl⟩
  · intro h
    simp [mkScanner, jsOrNat, h]
  · intro h
    simp [mkScanner, jsOrNat, h]
  · simp only [mkScanner, jsOrNat]
    cases h : opts.refractoryPeriod with
    | none => simp
    | some v =>
      by_cases hv : v = 0 <;> simp [hv]

/-- Witness for `zero_config_defaults` at concrete inputs. -/
theorem zero_config_defaults_witness :
    (mkScanner { scanPeriod := some 0, refractoryPeriod := some 0 }).scan.scanPeriod = 1 ∧
    (mkScanner { scanPeriod := some 0, refractoryPeriod := some 0 }).scan.refractoryPeriod = 5000 ∧
    (setRefractoryPeriod 0 (mkScanner {})).scan.refractoryPeriod = 0 :=
  ⟨(zero_config_defaults { scanPeriod := some 0, refractoryPeriod := some 0 }
      (mkScanner {})).1 rfl,
   (zero_config_defaults { scanPeriod := some 0, refractoryPeriod := some 0 }
      (mkScanner {})).2.1 rfl,
   (zero_config_defaults { scanPeriod := some 0, refractoryPeriod := some 0 }
      (mkScanner {})).2.2.2⟩

theorem scannerStop_of_stopped (sc : ScannerState)
    (h : sc.fsmState = FsmState.stopped) : scannerStop sc = sc := by
  simp [scannerStop, h]

theorem scannerStop_fsmState_stopped (sc : ScannerState) :
    (scannerStop sc).fsmState = FsmState.stopped := by
  cases h : sc.fsmState <;>
    simp [scannerStop, fsmStop, disableScan, h]

/-- A scanner in the `active` state with camera `2` running, used to
evaluate the lifecycle theorems on concrete inputs. -/
def sampleActive : ScannerState :=
  { fsmState := FsmState.active
    backgroundScan := false
    camera := some 2
    videoSrc := some 2
    cameraOn := true
    scan := ⟨true, 0, 1, false, 5000, none, none⟩
    trace := [] }

/-- A scanner in the `inactive` state with camera `2` stored. -/
def sampleInactive : ScannerState :=
  { fsmState := FsmState.inactive
    backgroundScan := false
    camera := some 2
    videoSrc := none
    cameraOn := false
    scan := ⟨false, 0, 1, false, 5000, none, none⟩
    trace := [] }

/-- A scanner in the `inactive` state with no camera stored. -/
def sampleNoCam : ScannerState :=
  { fsmState := FsmState.inactive
    backgroundScan := false
    camera := none
    videoSrc := none
    cameraOn := false
    scan := ⟨false, 0, 1, false, 5000, none, none⟩
    trace := [] }

/-- C5: `stop()` is idempotent: a second `stop()` leaves the state of
the first unchanged, after `stop()` the FSM is always `stopped`, and
stopping an active scanner halts the frame sampler, clears the video
source and stops the camera. -/
theorem stop_idempotent (sc : ScannerState) :
    scannerStop (scannerStop sc) = scannerStop sc ∧
    (scannerStop sc).fsmState = FsmState.stopped ∧
    (sc.fsmState = FsmState.stopped → scannerStop sc = sc) ∧
    (sc.fsmState = FsmState.active → sc.camera.isSome = true →
      (scannerStop sc).scan.active = false ∧
      (scannerStop sc).videoSrc = none ∧
      (scannerStop sc).cameraOn = false) := by
  refine ⟨scannerStop_of_stopped _ (scannerStop_fsmState_stopped sc),
    scannerStop_fsmState_stopped sc, scannerStop_of_stopped sc, ?_⟩
  intro ha hc
  simp [scannerStop, fsmStop, disableScan, ha, hc]

/-- Witness for `stop_idempotent` on a concrete active scanner. -/
theorem stop_idempotent_witness :
    scannerStop (scannerStop sampleActive) = scannerStop sampleActive ∧
    (scannerStop sampleActive).fsmState = FsmState.stopped ∧
    scannerStop (mkScanner {}) = mkScanner {} ∧
    ((scannerStop sampleActive).scan.active = false ∧
      (scannerStop sampleActive).videoSrc = none ∧
      (scannerStop sampleActive).cameraOn = false) :=
  ⟨(stop_idempotent sampleActive).1, (stop_idempotent sampleActive).2.1,
   (stop_idempotent (mkScanner {})).2.2.1 rfl,
   (stop_idempotent sampleActive).2.2.2 rfl rfl⟩

theorem fsmActivate_ok (sc : ScannerState) (cam : Option Nat) (visible : Bool)
    (hfrom : sc.fsmState = FsmState.started ∨ sc.fsmState = FsmState.inactive)
    (hcam : cam.isSome = true ∨ sc.camera.isSome = true) :
    ∃ sc2, fsmActivate cam visible sc = Except.ok sc2 ∧
      sc2.fsmState =
        (if visible || sc.backgroundScan then FsmState.active
         else FsmState.inactive) := by
  unfold fsmActivate
  rw [if_pos hfrom]
  by_cases hv : (visible || sc.backgroundScan) = true
  · rw [if_pos hv]
    obtain ⟨c, hc⟩ : ∃ c, (cam.orElse fun _ => sc.camera) = some c := by
      rcases hcam with h | h
      · cases cam with
        | none => simp at h
        | some c => exact ⟨c, rfl⟩
      · cases cam with
        | some c => exact ⟨c, rfl⟩
        | none =>
          cases hcc : sc.camera with
          | none => rw [hcc] at h; simp at h
          | some c => exact ⟨c, by simp [Option.orElse, hcc]⟩
    unfold enableScan
    rw [hc]
    exact ⟨_, rfl, by simp [hv]⟩
  · rw [if_neg hv]
    exact ⟨_, rfl, by simp [hv]⟩

/-- C1: an `activate` event fired from `started` or `inactive` (with a
camera available so setup succeeds) lands in `active` exactly when the
page is visible or `backgroundScan` is enabled, and in `inactive`
otherwise. -/
theorem activate_guard (sc : ScannerState) (cam : Option Nat) (visible : Bool)
    (hfrom : sc.fsmState = FsmState.started ∨ sc.fsmState = FsmState.inactive)
    (hcam : cam.isSome = true ∨ sc.camera.isSome = true) :
    ∃ sc2, fsmActivate cam visible sc = Except.ok sc2 ∧
      sc2.fsmState =
        (if visible || sc.backgroundScan then FsmState.active
         else FsmState.inactive) :=
  fsmActivate_ok sc cam visible hfrom hcam

/-- Witness for `activate_guard`: activating a concrete inactive
scanner on a visible page. -/
theorem activate_guard_witness :
    ∃ sc2, fsmActivate none true sampleInactive = Except.ok sc2 ∧
      sc2.fsmState =
        (if true || sampleInactive.backgroundScan then FsmState.active
         else FsmState.inactive) :=
  activate_guard sampleInactive none true (Or.inr rfl) (Or.inr rfl)

/-- C6: entering `active` resolves the camera from the explicit
argument or the stored handle; with neither, activation rejects with
the camera-undefined error (propagated to the caller of `start`);
otherwise the camera is started, its stream bound as the video source
and the frame sampler started, all before the `active` event is
emitted. -/
theorem enter_active_setup (visible : Bool) (sc : ScannerState)
    (cam : Option Nat) (c : Nat) :
    ((sc.fsmState = FsmState.started ∨ sc.fsmState = FsmState.inactive) →
      (visible || sc.backgroundScan) = true → cam = none → sc.camera = none →
      fsmActivate cam visible sc = Except.error ScanError.cameraUndefined) ∧
    ((sc.fsmState = FsmState.started ∨ sc.fsmState = FsmState.inactive) →
      (visible || sc.backgroundScan) = true →
      (cam = some c ∨ (cam = none ∧ sc.camera = some c)) →
      ∃ sc2, fsmActivate cam visible sc = Except.ok sc2 ∧
        sc2.fsmState = FsmState.active ∧ sc2.camera = some c ∧
        sc2.videoSrc = some c ∧ sc2.cameraOn = true ∧
        sc2.scan.active = true ∧
        sc2.trace = sc.trace ++
          [Act.cameraStart c, Act.bindVideo c, Act.scanStart,
            Act.emitActive]) ∧
    (sc.fsmState = FsmState.stopped → sc.camera = none → visible = true →
      scannerStart none visible sc = Except.error ScanError.cameraUndefined) := by
  refine ⟨?_, ?_, ?_⟩
  · intro hfrom hv hcamArg hcamStored
    subst hcamArg
    unfold fsmActivate
    rw [if_pos hfrom, if_pos hv]
    unfold enableScan
    have hc : ((none : Option Nat).orElse fun _ => sc.camera) = none :=
      hcamStored
    rw [hc]
  · intro hfrom hv hcam
    have hc : (cam.orElse fun _ => sc.camera) = some c := by
      rcases hcam with h | ⟨h1, h2⟩
      · rw [h]; rfl
      · rw [h1]; exact h2
    unfold fsmActivate
    rw [if_pos hfrom, if_pos hv]
    unfold enableScan
    rw [hc]
    exact ⟨_, rfl, rfl, by simp, by simp, by simp, by simp, by simp⟩
  · intro hst hcamStored hv
    unfold scannerStart
    rw [if_pos hst]
    unfold fsmStart
    rw [if_pos hst]
    unfold fsmActivate
    rw [if_pos (Or.inl rfl), if_pos (by simp [hv])]
    unfold enableScan
    have hc : ((none : Option Nat).orElse
        fun _ => ({ sc with fsmState := FsmState.started } : ScannerState).camera) = none :=
      hcamStored
    rw [hc]

/-- Witness for `enter_active_setup` on concrete scanners. -/
theorem enter_active_setup_witness :
    fsmActivate none true sampleNoCam = Except.error ScanError.cameraUndefined ∧
    (∃ sc2, fsmActivate (some 5) true sampleInactive = Except.ok sc2 ∧
      sc2.fsmState = FsmState.active ∧ sc2.camera = some 5 ∧
      sc2.videoSrc = some 5 ∧ sc2.cameraOn = true ∧
      sc2.scan.active = true ∧
      sc2.trace = sampleInactive.trace ++
        [Act.cameraStart 5, Act.bindVideo 5, Act.scanStart,
          Act.emitActive]) ∧
    scannerStart none true (mkScanner {}) =
      Except.error ScanError.cameraUndefined :=
  ⟨(enter_active_setup true sampleNoCam none 5).1 (Or.inr rfl) rfl rfl rfl,
   (enter_active_setup true sampleInactive (some 5) 5).2.1 (Or.inr rfl) rfl
     (Or.inl rfl),
   (enter_active_setup true (mkScanner {}) none 5).2.2 rfl rfl rfl⟩

theorem scannerStart_some_from_stopped (c : Nat) (visible : Bool)
    (u : ScannerState) (hu : u.fsmState = FsmState.stopped) :
    ∃ u2, scannerStart (some c) visible u = Except.ok u2 ∧
      u2.fsmState =
        (if visible || u.backgroundScan then FsmState.active
         else FsmState.inactive) := by
  unfold scannerStart
  rw [if_pos hu]
  unfold fsmStart
  rw [if_pos hu]
  obtain ⟨u2, h1, h2⟩ :=
    fsmActivate_ok { u with fsmState := FsmState.started } (some c) visible
      (Or.inl rfl) (Or.inl rfl)
  exact ⟨u2, h1, by simpa using h2⟩

theorem fsmStop_ok (sc : ScannerState) (hs : sc.fsmState ≠ FsmState.stopped) :
    ∃ sc1, fsmStop sc = Except.ok sc1 ∧ sc1.fsmState = FsmState.stopped ∧
      sc1.backgroundScan = sc.backgroundScan ∧ sc1.camera = sc.camera := by
  cases h : sc.fsmState with
  | stopped => exact absurd h hs
  | started =>
    exact ⟨{ sc with fsmState := FsmState.stopped }, by simp [fsmStop, h],
      rfl, rfl, rfl⟩
  | inactive =>
    exact ⟨{ sc with fsmState := FsmState.stopped }, by simp [fsmStop, h],
      rfl, rfl, rfl⟩
  | active =>
    refine ⟨{ disableScan sc with
                fsmState := FsmState.stopped,
                trace := (disableScan sc).trace ++ [Act.emitInactive] },
      ?_, rfl, ?_, ?_⟩
    · simp [fsmStop, h]
    · simp [disableScan]
    · simp [disableScan]

/-- C4: `start(cameraX)` on a scanner that is not stopped first forces
a `stop` (reaching `stopped`) and then behaves as `start` on the
stopped scanner; it succeeds, ends in `active` or `inactive`, and ends
in the same FSM state as a fresh `start(cameraX)` on any stopped
scanner with the same `backgroundScan` setting. -/
theorem start_restart (sc t : ScannerState) (c : Nat) (visible : Bool)
    (hs : sc.fsmState ≠ FsmState.stopped) (ht : t.fsmState = FsmState.stopped)
    (hbg : t.backgroundScan = sc.backgroundScan) :
    ∃ sc1 sc2 t2,
      fsmStop sc = Except.ok sc1 ∧ sc1.fsmState = FsmState.stopped ∧
      scannerStart (some c) visible sc = fsmStart (some c) visible sc1 ∧
      scannerStart (some c) visible sc = Except.ok sc2 ∧
      scannerStart (some c) visible t = Except.ok t2 ∧
      sc2.fsmState = t2.fsmState ∧
      (sc2.fsmState = FsmState.active ∨ sc2.fsmState = FsmState.inactive) := by
  obtain ⟨sc1, hstop, hsc1, hbg1, hcam1⟩ := fsmStop_ok sc hs
  have hmain : scannerStart (some c) visible sc = fsmStart (some c) visible sc1 := by
    unfold scannerStart
    rw [if_neg hs, hstop]
  have heq1 : scannerStart (some c) visible sc1 = fsmStart (some c) visible sc1 := by
    unfold scannerStart
    rw [if_pos hsc1]
  obtain ⟨sc2, h2, hfs2⟩ := scannerStart_some_from_stopped c visible sc1 hsc1
  obtain ⟨t2, h3, hfs3⟩ := scannerStart_some_from_stopped c visible t ht
  refine ⟨sc1, sc2, t2, hstop, hsc1, hmain, ?_, h3, ?_, ?_⟩
  · rw [hmain, ← heq1]
    exact h2
  · rw [hfs2, hfs3, hbg1, hbg]
  · rw [hfs2]
    by_cases hv : (visible || sc1.backgroundScan) = true
    · exact Or.inl (by simp [hv])
    · exact Or.inr (by simp [hv])

/-- Witness for `start_restart`: restarting a concrete active scanner
versus a fresh start on a stopped one. -/
theorem start_restart_witness :
    ∃ sc1 sc2 t2,
      fsmStop sampleActive = Except.ok sc1 ∧ sc1.fsmState = FsmState.stopped ∧
      scannerStart (some 2) true sampleActive = fsmStart (some 2) true sc1 ∧
      scannerStart (some 2) true sampleActive = Except.ok sc2 ∧
      scannerStart (some 2) true (mkScanner {}) = Except.ok t2 ∧
      sc2.fsmState = t2.fsmState ∧
      (sc2.fsmState = FsmState.active ∨ sc2.fsmState = FsmState.inactive) :=
  start_restart sampleActive (mkScanner {}) 2 true (by decide) rfl rfl

theorem scanTick_preserved (now : Nat) (a : Option Analysis) (s : ScanState) :
    (scanTick now a s).1.active = s.active ∧
    (scanTick now a s).1.scanPeriod = s.scanPeriod ∧
    (scanTick now a s).1.captureImage = s.captureImage ∧
    (scanTick now a s).1.refractoryPeriod = s.refractoryPeriod := by
  by_cases ha : (fireDueTimer now s).active = true
  · by_cases hf :
      (fireDueTimer now s).frameCount + 1 = (fireDueTimer now s).scanPeriod
    · cases a with
      | none =>
        rw [scanTick_of_due_none now s ha hf]
        simp [fireDueTimer_active, fireDueTimer_scanPeriod,
          fireDueTimer_captureImage, fireDueTimer_refractoryPeriod]
      | some x =>
        by_cases hr :
          x.result = "" ∨ (fireDueTimer now s).lastResult = some x.result
        · rw [scanTick_of_due_reject now x s ha hf hr]
          simp [fireDueTimer_active, fireDueTimer_scanPeriod,
            fireDueTimer_captureImage, fireDueTimer_refractoryPeriod]
        · rw [scanTick_of_due_accept now x s ha hf hr]
          simp [fireDueTimer_active, fireDueTimer_scanPeriod,
            fireDueTimer_captureImage, fireDueTimer_refractoryPeriod]
    · rw [scanTick_of_notDue now a s ha hf]
      simp [fireDueTimer_active, fireDueTimer_scanPeriod,
        fireDueTimer_captureImage, fireDueTimer_refractoryPeriod]
  · rw [scanTick_of_inactive now a s (by simpa using ha)]
    simp [fireDueTimer_active, fireDueTimer_scanPeriod,
      fireDueTimer_captureImage, fireDueTimer_refractoryPeriod]

theorem scanTick_frameCount (now : Nat) (a : Option Analysis) (s : ScanState)
    (ha : s.active = true) (h : s.frameCount + 1 ≤ s.scanPeriod) :
    (scanTick now a s).1.frameCount = (s.frameCount + 1) % s.scanPeriod ∧
    (scanTick now a s).2.analyzeInvoked =
      decide (s.frameCount + 1 = s.scanPeriod) := by
  have ha2 : (fireDueTimer now s).active = true := by
    rw [fireDueTimer_active]; exact ha
  by_cases hf : s.frameCount + 1 = s.scanPeriod
  · have hf2 :
        (fireDueTimer now s).frameCount + 1 = (fireDueTimer now s).scanPeriod := by
      rw [fireDueTimer_frameCount, fireDueTimer_scanPeriod]; exact hf
    have hmod : (s.frameCount + 1) % s.scanPeriod = 0 := by
      rw [hf]; exact Nat.mod_self _
    cases a with
    | none =>
      rw [scanTick_of_due_none now s ha2 hf2]
      exact ⟨by simp [hmod], by simp [hf]⟩
    | some x =>
      by_cases hr :
        x.result = "" ∨ (fireDueTimer now s).lastResult = some x.result
      · rw [scanTick_of_due_reject now x s ha2 hf2 hr]
        exact ⟨by simp [hmod], by simp [hf]⟩
      · rw [scanTick_of_due_accept now x s ha2 hf2 hr]
        exact ⟨by simp [hmod], by simp [hf]⟩
  · have hf2 :
        (fireDueTimer now s).frameCount + 1 ≠ (fireDueTimer now s).scanPeriod := by
      rw [fireDueTimer_frameCount, fireDueTimer_scanPeriod]; exact hf
    rw [scanTick_of_notDue now a s ha2 hf2]
    constructor
    · simp [fireDueTimer_frameCount]
      exact (Nat.mod_eq_of_lt (lt_of_le_of_ne h hf)).symm
    · simp [hf]

theorem runFlags_formula (N : Nat) (hN : 0 < N) :
    ∀ (L : List (Nat × Option Analysis)) (s : ScanState) (k : Nat),
      s.active = true → s.scanPeriod = N → s.frameCount = k → k < N →
      runFlags s L =
        (List.range L.length).map (fun i => decide ((k + i + 1) % N = 0)) := by
  intro L
  induction L with
  | nil =>
    intro s k _ _ _ _
    rfl
  | cons p rest ih =>
    intro s k ha hp hf hk
    obtain ⟨now, a⟩ := p
    have hle : s.frameCount + 1 ≤ s.scanPeriod := by omega
    obtain ⟨hfc, hinv⟩ := scanTick_frameCount now a s ha hle
    obtain ⟨hact, hsp, _, _⟩ := scanTick_preserved now a s
    have hrec := ih (scanTick now a s).1 ((k + 1) % N)
      (by rw [hact]; exact ha)
      (by rw [hsp]; exact hp)
      (by rw [hfc, hf, hp])
      (Nat.mod_lt _ hN)
    show (scanTick now a s).2.analyzeInvoked ::
        runFlags (scanTick now a s).1 rest = _
    rw [hrec, hinv, List.length_cons, List.range_succ_eq_map, List.map_cons,
      List.map_map]
    congr 1
    · rw [hf, hp]
      by_cases he : k + 1 = N
      · simp [he, Nat.mod_self]
      · have hlt : k + 1 < N := by omega
        simp [he, Nat.mod_eq_of_lt hlt]
    · apply List.map_congr_left
      intro i _
      have harith : ((k + 1) % N + i + 1) % N = (k + (i + 1) + 1) % N := by
        have h1 : (k + 1) % N + i + 1 = (k + 1) % N + (i + 1) := by omega
        rw [h1, Nat.mod_add_mod]
        congr 1
        omega
      simp [Function.comp, harith]

/-- C3: for an active scan loop with fixed positive `scanPeriod` `N`
and frame counter starting at zero, `analyze` is invoked on exactly
the ticks whose 1-based index is a multiple of `N` (once per `N`
ticks, never more often), whatever the analysis results and tick
times. -/
theorem scan_cadence (N : Nat) (s : ScanState)
    (L : List (Nat × Option Analysis)) (hN : 0 < N) (ha : s.active = true)
    (hp : s.scanPeriod = N) (hf : s.frameCount = 0) :
    runFlags s L =
      (List.range L.length).map (fun i => decide ((i + 1) % N = 0)) := by
  have h := runFlags_formula N hN L s 0 ha hp hf hN
  simpa using h

/-- Witness for `scan_cadence` with period 3 over six ticks. -/
theorem scan_cadence_witness :
    runFlags ⟨true, 0, 3, false, 5000, none, none⟩
      [(0, none), (1, none), (2, some ⟨"X", 1⟩), (3, none), (4, none),
        (5, none)] =
      (List.range 6).map (fun i => decide ((i + 1) % 3 = 0)) :=
  scan_cadence 3 ⟨true, 0, 3, false, 5000, none, none⟩
    [(0, none), (1, none), (2, some ⟨"X", 1⟩), (3, none), (4, none),
      (5, none)] (by decide) rfl rfl rfl

/-- C2: on a decode-due tick, a fresh non-empty result is accepted:
the `scan` event is emitted, the result is recorded as `lastResult`
and the expiry timer is (re)scheduled for `refractoryPeriod` from now,
replacing any pending timer.  While the pending timer has not fired,
any tick seeing the same result emits nothing and leaves `lastResult`
and the timer untouched.  Once the timer's fire time has been reached,
the timer clears `lastResult` and the same result is accepted again,
emitting a second `scan` event and scheduling a fresh timer. -/
theorem refractory_suppression (s : ScanState) (r : String) (c now tf : Nat) :
    (s.active = true → s.frameCount + 1 = s.scanPeriod → r ≠ "" →
      s.lastResult ≠ some r →
      (scanTick now (some ⟨r, c⟩) s).2.event =
          some ⟨r, if s.captureImage then some c else none⟩ ∧
        (scanTick now (some ⟨r, c⟩) s).1.lastResult = some r ∧
        (scanTick now (some ⟨r, c⟩) s).1.refractoryTimeout =
          some (now + s.refractoryPeriod)) ∧
    (s.lastResult = some r → s.refractoryTimeout = some tf → now < tf →
      (scanTick now (some ⟨r, c⟩) s).2.event = none ∧
        (scanTick now (some ⟨r, c⟩) s).1.lastResult = some r ∧
        (scanTick now (some ⟨r, c⟩) s).1.refractoryTimeout = some tf) ∧
    (s.active = true → s.frameCount + 1 = s.scanPeriod → r ≠ "" →
      s.lastResult = some r → s.refractoryTimeout = some tf → tf ≤ now →
      (scanTick now (some ⟨r, c⟩) s).2.event =
          some ⟨r, if s.captureImage then some c else none⟩ ∧
        (scanTick now (some ⟨r, c⟩) s).1.lastResult = some r ∧
        (scanTick now (some ⟨r, c⟩) s).1.refractoryTimeout =
          some (now + s.refractoryPeriod)) := by
  refine ⟨?_, ?_, ?_⟩
  · intro ha hdue hr hne
    have ha2 : (fireDueTimer now s).active = true := by
      rw [fireDueTimer_active]; exact ha
    have hf2 :
        (fireDueTimer now s).frameCount + 1 = (fireDueTimer now s).scanPeriod := by
      rw [fireDueTimer_frameCount, fireDueTimer_scanPeriod]; exact hdue
    have hlast : (fireDueTimer now s).lastResult ≠ some r := by
      unfold fireDueTimer
      cases htf : s.refractoryTimeout with
      | none => exact hne
      | some tf2 =>
        by_cases hle : tf2 ≤ now
        · simp [hle]
        · simp [hle]; exact hne
    have hrj : ¬((⟨r, c⟩ : Analysis).result = "" ∨
        (fireDueTimer now s).lastResult = some (⟨r, c⟩ : Analysis).result) := by
      rintro (h | h)
      · exact hr h
      · exact hlast h
    rw [scanTick_of_due_accept now ⟨r, c⟩ s ha2 hf2 hrj]
    exact ⟨rfl, rfl, rfl⟩
  · intro hl ht hnow
    have hfd : fireDueTimer now s = s :=
      fireDueTimer_of_pending now tf s ht (by omega)
    by_cases ha : s.active = true
    · by_cases hdue : s.frameCount + 1 = s.scanPeriod
      · have hrj : (⟨r, c⟩ : Analysis).result = "" ∨
            (fireDueTimer now s).lastResult = some (⟨r, c⟩ : Analysis).result := by
          right
          rw [hfd]
          exact hl
        rw [scanTick_of_due_reject now ⟨r, c⟩ s (by rw [hfd]; exact ha)
          (by rw [hfd]; exact hdue) hrj, hfd]
        exact ⟨rfl, hl, ht⟩
      · rw [scanTick_of_notDue now (some ⟨r, c⟩) s (by rw [hfd]; exact ha)
          (by rw [hfd]; exact hdue), hfd]
        exact ⟨rfl, hl, ht⟩
    · rw [scanTick_of_inactive now (some ⟨r, c⟩) s
        (by rw [hfd]; simpa using ha), hfd]
      exact ⟨rfl, hl, ht⟩
  · intro ha hdue hr hl ht hle
    have hfd : fireDueTimer now s =
        { s with lastResult := none, refractoryTimeout := none } :=
      fireDueTimer_of_due now tf s ht hle
    have hrj : ¬((⟨r, c⟩ : Analysis).result = "" ∨
        (fireDueTimer now s).lastResult = some (⟨r, c⟩ : Analysis).result) := by
      rw [hfd]
      rintro (h | h)
      · exact hr h
      · simp at h
    rw [scanTick_of_due_accept now ⟨r, c⟩ s (by rw [hfd]; exact ha)
      (by rw [hfd]; exact hdue) hrj]
    exact ⟨rfl, rfl, rfl⟩

/-- Witness for `refractory_suppression`: acceptance, in-window
suppression, and re-acceptance after expiry at concrete inputs
(refractory period 100, result `X`). -/
theorem refractory_suppression_witness :
    ((scanTick 0 (some ⟨"X", 1⟩) ⟨true, 0, 1, false, 100, none, none⟩).2.event =
        some ⟨"X", none⟩ ∧
      (scanTick 0 (some ⟨"X", 1⟩)
          ⟨true, 0, 1, false, 100, none, none⟩).1.lastResult = some "X" ∧
      (scanTick 0 (some ⟨"X", 1⟩)
          ⟨true, 0, 1, false, 100, none, none⟩).1.refractoryTimeout = some 100) ∧
    ((scanTick 50 (some ⟨"X", 1⟩)
        ⟨true, 0, 1, false, 100, some "X", some 100⟩).2.event = none ∧
      (scanTick 50 (some ⟨"X", 1⟩)
          ⟨true, 0, 1, false, 100, some "X", some 100⟩).1.lastResult = some "X" ∧
      (scanTick 50 (some ⟨"X", 1⟩)
          ⟨true, 0, 1, false, 100, some "X", some 100⟩).1.refractoryTimeout =
        some 100) ∧
    ((scanTick 100 (some ⟨"X", 1⟩)
        ⟨true, 0, 1, false, 100, some "X", some 100⟩).2.event =
          some ⟨"X", none⟩ ∧
      (scanTick 100 (some ⟨"X", 1⟩)
          ⟨true, 0, 1, false, 100, some "X", some 100⟩).1.lastResult = some "X" ∧
      (scanTick 100 (some ⟨"X", 1⟩)
          ⟨true, 0, 1, false, 100, some "X", some 100⟩).1.refractoryTimeout =
        some 200) :=
  ⟨(refractory_suppression ⟨true, 0, 1, false, 100, none, none⟩ "X" 1 0 0).1
      rfl rfl (by decide) (by decide),
   (refractory_suppression ⟨true, 0, 1, false, 100, some "X", some 100⟩
      "X" 1 50 100).2.1 rfl rfl (by decide),
   (refractory_suppression ⟨true, 0, 1, false, 100, some "X", some 100⟩
      "X" 1 100 100).2.2 rfl rfl (by decide) rfl rfl (by decide)⟩

/-- A scanner whose active scan loop ran 5 ticks with `scanPeriod`
10, leaving the frame counter at 5. -/
def cexScanner : ScannerState :=
  { sampleActive with
      scan := runState ⟨true, 0, 10, false, 5000, none, none⟩
        [(0, none), (1, none), (2, none), (3, none), (4, none)] }

/-- C8 counterexample: on a running scan loop whose frame counter
stands at 5, assigning the positive `scanPeriod` 3 through the public
setter yields no decode attempt within the next 3 ticks (the counter
has already passed the new period, so `++frameCount !== scanPeriod`
never holds again). -/
theorem scanPeriod_mutation_cex :
    cexScanner.scan.frameCount = 5 ∧ cexScanner.scan.active = true ∧
    runFlags (setScanPeriod 3 cexScanner).scan
      [(5, none), (6, none), (7, none)] = [false, false, false] := by decide

/-- C8 (amended): `captureImage`, `scanPeriod` and `refractoryPeriod`
are mutable at any time through the public setters and the new value
is what the next tick reads; moreover, provided the frame counter is
still below the newly assigned positive `scanPeriod` `N`, the next
decode attempt occurs within the next `N` ticks. -/
theorem config_mutation (sc : ScannerState) (N p : Nat) (b : Bool)
    (L : List (Nat × Option Analysis)) (hN : 0 < N)
    (hf : sc.scan.frameCount < N) (ha : sc.scan.active = true)
    (hL : L.length = N) :
    (setCaptureImage b sc).scan.captureImage = b ∧
    (setRefractoryPeriod p sc).scan.refractoryPeriod = p ∧
    (setScanPeriod N sc).scan.scanPeriod = N ∧
    true ∈ runFlags (setScanPeriod N sc).scan L := by
  refine ⟨rfl, rfl, rfl, ?_⟩
  have h := runFlags_formula N hN L (setScanPeriod N sc).scan
    sc.scan.frameCount (by simpa [setScanPeriod] using ha)
    (by simp [setScanPeriod]) (by simp [setScanPeriod]) hf
  rw [h, hL]
  refine List.mem_map.mpr
    ⟨N - sc.scan.frameCount - 1, List.mem_range.mpr (by omega), ?_⟩
  have harith : sc.scan.frameCount + (N - sc.scan.frameCount - 1) + 1 = N := by
    omega
  simp [harith, Nat.mod_self]

/-- Witness for `config_mutation` on a concrete running scanner. -/
theorem config_mutation_witness :
    (setCaptureImage true sampleActive).scan.captureImage = true ∧
    (setRefractoryPeriod 7 sampleActive).scan.refractoryPeriod = 7 ∧
    (setScanPeriod 2 sampleActive).scan.scanPeriod = 2 ∧
    true ∈ runFlags (setScanPeriod 2 sampleActive).scan
      [(0, none), (1, none)] :=
  config_mutation sampleActive 2 7 true [(0, none), (1, none)]
    (by decide) (by decide) rfl rfl

end Instascan
